import Mathlib

/-!
Verification development for the HAMU water-refill backend
(`hamu_backend`, Django/DRF).  The definitions below are a shallow
embedding of the reconciliation core: the stock ledger, the loyalty /
free-refill calculator, the credit-balance reconciler, the offline-sync
idempotency gate, and the manual inventory-adjustment endpoint.

Conventions of the embedding:
* Database tables are Lean lists in insertion order; a Django
  `filter(...).first()` over an unordered queryset is `List.find?`.
* Money and quantities are `Int` (the source uses exact `Decimal` /
  Python integers for every computation the claims touch).
* Python floor division `//` and modulo `%` are `Int.fdiv` / `Int.fmod`,
  which have the same floor-based semantics.
* Code that can raise is embedded with `Option` / `Except`.
* Timestamps are `Nat` tick counts; `timezone.now()` is an explicit
  `now` argument.
* SMS dispatch and image-file construction are pure I/O with no effect
  on any table and are not modelled.
-/

namespace Hamu

/-- A row of the `Refills` table (refills/models.py fields used by the
serializers: customer, shop, package, quantity, payment_mode, cost,
is_free, is_partially_free, free_quantity, paid_quantity,
loyalty_refill_count, created_at, agent_name, client_id). -/
structure Refill where
  client_id : Option Nat
  customer : Option Nat
  shop : Nat
  package : Nat
  quantity : Int
  payment_mode : String
  cost : Int
  is_free : Bool
  is_partially_free : Bool
  free_quantity : Int
  paid_quantity : Int
  loyalty_refill_count : Int
  created_at : Nat
  agent_name : String
deriving Repr, DecidableEq

/-- A row of the `Sales` table. -/
structure Sale where
  client_id : Option Nat
  customer : Option Nat
  shop : Nat
  package : Nat
  quantity : Int
  payment_mode : String
  cost : Int
  sold_at : Nat
  agent_name : String
deriving Repr, DecidableEq

/-- A row of the `Credits` table (signed `money_paid`). -/
structure Credit where
  client_id : Option Nat
  customer : Nat
  shop : Nat
  money_paid : Int
  payment_mode : String
  payment_date : Nat
  agent_name : String
deriving Repr, DecidableEq

/-- A row of the `Expenses` table (`receipt` is the stored file
reference; base64 decoding of the upload is external I/O, modelled as
carrying the provided content string). -/
structure Expense where
  client_id : Option Nat
  shop : Nat
  description : String
  cost : Int
  receipt : Option String
  agent_name : String
deriving Repr, DecidableEq

/-- A row of the `MeterReading` table. -/
structure MeterReading where
  client_id : Option Nat
  shop : Nat
  agent_name : String
  value : Int
  reading_type : String
  reading_date : Nat
deriving Repr, DecidableEq

/-- A row of the `Customers` table (derived quantities are never stored). -/
structure Customer where
  client_id : Option Nat
  shop : Nat
  names : String
  phone_number : String
  date_registered : Nat
deriving Repr, DecidableEq

/-- A row of the `StockLog` ledger: immutable signed quantity delta. -/
structure LogEntry where
  stock_item : Nat
  shop : Nat
  quantity_change : Int
  notes : String
  actor : String
deriving Repr, DecidableEq

/-- The shop configuration consulted by the core: `freeRefillInterval`. -/
structure Shop where
  id : Nat
  freeRefillInterval : Int
deriving Repr, DecidableEq

/-- Reference data of a sellable package. -/
structure Package where
  id : Nat
  price : Int
  sale_type : String
  bottle_type : Option String
deriving Repr, DecidableEq

/-- The whole store: each table as a list in insertion order. -/
structure DB where
  sales : List Sale
  refills : List Refill
  credits : List Credit
  expenses : List Expense
  meter_readings : List MeterReading
  customers : List Customer
  stock_log : List LogEntry
deriving Repr, DecidableEq

/-! ## Loyalty / free-refill calculator -/

/-- The loyalty dictionary returned by `get_loyalty`. -/
structure LoyaltyInfo where
  current_points : Int
  refills_until_free : Int
  free_refills_redeemed : Int
deriving Repr, DecidableEq

/-- `getattr(refill, 'quantity', 1) or 1` from
customers/serializers.py line 120: a falsy quantity (0 / None) counts
as 1. -/
def quantityOrOne (r : Refill) : Int :=
  if r.quantity = 0 then 1 else r.quantity

/-- Embeds `CustomerSerializer.get_loyalty`
(customers/serializers.py lines 97-145), applied to the customer's
refill list and the shop's `freeRefillInterval`.  The source performs
`refill_quantities // free_refill_interval` with no guard, so
`interval = 0` raises `ZeroDivisionError`: embedded as `none`. -/
def get_loyalty (interval : Int) (refills : List Refill) : Option LoyaltyInfo :=
  if interval = 0 then none
  else
    let refill_quantities := (refills.map quantityOrOne).sum
    let free_refills : Int := ((refills.filter (fun r => r.is_free)).length : Int)
    let calculated_free_refills := Int.fdiv refill_quantities interval
    let free_refills_redeemed := max free_refills calculated_free_refills
    let paid_quantities := refill_quantities - free_refills_redeemed
    let current_points := Int.fmod paid_quantities interval
    let refills_until_free :=
      if 0 < current_points then interval - current_points else interval
    some { current_points := current_points
           refills_until_free := refills_until_free
           free_refills_redeemed := free_refills_redeemed }

/-- Timestamp of the customer's most recent `is_free = true` refill
(`Refills.objects.filter(is_free=True).order_by('-created_at').first()`). -/
def lastFreeRefillTime (refills : List Refill) : Option Nat :=
  ((refills.filter (fun r => r.is_free)).map (fun r => r.created_at)).max?

/-- The non-free refills strictly after the last free refill (all
non-free refills when none exists), summed over `loyalty_refill_count`
(refills/serializers.py lines 85-109, also lines 46-70). -/
def refillsSinceFree (refills : List Refill) : Int :=
  let window : List Refill :=
    match lastFreeRefillTime refills with
    | some t => refills.filter (fun r => !r.is_free && decide (t < r.created_at))
    | none => refills.filter (fun r => !r.is_free)
  (window.map (fun r => r.loyalty_refill_count)).sum

/-- Embeds `RefillSerializer.get_free_refills_available`
(refills/serializers.py lines 75-112). -/
def get_free_refills_available (interval : Int) (customer : Option Nat)
    (refills : List Refill) : Int :=
  match customer with
  | none => 0
  | some _ =>
    if interval ≤ 0 then 0
    else Int.fdiv (refillsSinceFree refills) interval

/-- Embeds `RefillSerializer.get_is_next_refill_free`
(refills/serializers.py lines 36-73). -/
def get_is_next_refill_free (interval : Int) (customer : Option Nat)
    (refills : List Refill) : Bool :=
  match customer with
  | none => false
  | some _ =>
    if interval ≤ 0 then false
    else decide (interval ≤ refillsSinceFree refills)

/-- The loyalty status exactly as claim C1 words it: `accrued` is the
sum of `loyalty_refill_count` over the non-free refills strictly after
the most recent free refill; the remaining formulas as stated.  Written
from the claim, for comparison with `get_loyalty`. -/
def loyaltyClaimC1 (interval : Int) (refills : List Refill) : LoyaltyInfo :=
  let accrued := refillsSinceFree refills
  let free_count : Int := ((refills.filter (fun r => r.is_free)).length : Int)
  let free_refills_redeemed := max free_count (Int.fdiv accrued interval)
  let current_points := Int.fmod (accrued - free_refills_redeemed) interval
  let refills_until_free :=
    if 0 < current_points then interval - current_points else interval
  { current_points := current_points
    refills_until_free := refills_until_free
    free_refills_redeemed := free_refills_redeemed }

/-! ## Credit balance reconciler -/

/-- Sum of `money_paid` over a customer's `Credits` rows
(`customer.credit_payments`): customers/views.py lines 79-82,
customers/serializers.py lines 353-358. -/
def total_repaid (credits : List Credit) (cid : Nat) : Int :=
  ((credits.filter (fun p => p.customer == cid)).map (fun p => p.money_paid)).sum

/-- Sum of `cost` over the customer's CREDIT-mode Refills and Sales
(customers/views.py lines 69-76, customers/serializers.py lines
336-351). -/
def total_owed (sales : List Sale) (refills : List Refill) (cid : Nat) : Int :=
  ((refills.filter (fun r => r.customer == some cid && r.payment_mode == "CREDIT")).map
      (fun r => r.cost)).sum
  + ((sales.filter (fun s => s.customer == some cid && s.payment_mode == "CREDIT")).map
      (fun s => s.cost)).sum

/-- `outstanding` from `CustomerInsightSerializer.get_credit_info`
(customers/serializers.py line 361). -/
def outstanding (db : DB) (cid : Nat) : Int :=
  max 0 (total_owed db.sales db.refills cid - total_repaid db.credits cid)

/-- `credit_balance` from `CustomerViewSet.export_for_offline`
(customers/views.py line 86): repaid minus owed, signed. -/
def credit_balance (db : DB) (cid : Nat) : Int :=
  total_repaid db.credits cid - total_owed db.sales db.refills cid

/-! ## Stock ledger and manual adjustment -/

/-- Modelled from the spec: `StockCalculationService.get_current_stock_level`
lives in stock/services.py, which is not among the sources; spec §4.1
defines the current level of an item as the sum of `quantity_change`
over all of its ledger entries. -/
def get_current_stock_level (log : List LogEntry) (item : Nat) : Int :=
  ((log.filter (fun e => e.stock_item == item)).map (fun e => e.quantity_change)).sum

/-- The three manual adjustment intents
(analytics/inventory_serializers.py line 20). -/
inductive AdjustmentType
  | add
  | subtract
  | set
deriving Repr, DecidableEq

/-- The two rejection paths of the adjustment endpoint: the serializer
validation error for a non-positive quantity
(analytics/inventory_serializers.py lines 26-32) and the
insufficient-stock rejection (analytics/inventory_views.py lines 65-69). -/
inductive AdjustError
  | invalidQuantity
  | insufficientStock
deriving Repr, DecidableEq

/-- The quantities reported in the success response
(analytics/inventory_views.py lines 86-97). -/
structure AdjustInfo where
  previous_quantity : Int
  quantity_changed : Int
  new_quantity : Int
deriving Repr, DecidableEq

/-- Embeds `InventoryAdjustmentView.post`
(analytics/inventory_views.py lines 38-97) after the shop-ownership
check: serializer validation, delta computation per adjustment type,
and the append of one `StockLog` row.  Returns the resulting ledger
(unchanged on rejection, since the view responds before
`stock_log.save()`) together with the outcome. -/
def adjust_stock (log : List LogEntry) (item : Nat) (shop : Nat)
    (ty : AdjustmentType) (quantity : Int) (reason actor : String) :
    List LogEntry × Except AdjustError AdjustInfo :=
  if quantity ≤ 0 then (log, Except.error AdjustError.invalidQuantity)
  else
    let current := get_current_stock_level log item
    match ty with
    | AdjustmentType.add =>
        (log ++ [{ stock_item := item, shop := shop, quantity_change := quantity,
                   notes := "Manual adjustment: ".append reason, actor := actor }],
         Except.ok { previous_quantity := current, quantity_changed := quantity,
                     new_quantity := current + quantity })
    | AdjustmentType.subtract =>
        if current + (-quantity) < 0 then
          (log, Except.error AdjustError.insufficientStock)
        else
          (log ++ [{ stock_item := item, shop := shop, quantity_change := -quantity,
                     notes := "Manual adjustment: ".append reason, actor := actor }],
           Except.ok { previous_quantity := current, quantity_changed := -quantity,
                       new_quantity := current + (-quantity) })
    | AdjustmentType.set =>
        (log ++ [{ stock_item := item, shop := shop, quantity_change := quantity - current,
                   notes := "Manual adjustment: ".append reason, actor := actor }],
         Except.ok { previous_quantity := current, quantity_changed := quantity - current,
                     new_quantity := quantity })

/-! ## Inventory reconciliation engine (spec-modelled) -/

/-- Modelled from the spec: the reconciliation engine
(`StockCalculationService` in stock/services.py) is not among the
sources.  A failure to resolve a required `StockItem` mapping. -/
inductive ReconciliationError
  | unresolvedMapping
deriving Repr, DecidableEq

/-- Modelled from the spec: the shop's resolved StockItem mappings
(spec §4.2); `none` means the mapping cannot be resolved and the engine
signals an error. -/
structure StockMapping where
  bottle_item : Option Nat
  cap_item : Option Nat
  label_item : Option Nat
  bundle_item : Option Nat
deriving Repr, DecidableEq

/-- Modelled from the spec: `deduct_stock_for_sale` (spec §4.2) — one
bottle and one label per unit for a bottle sale, the bundle item for a
bundle/refill-type package; error when a required mapping is missing. -/
def deduct_stock_for_sale (m : StockMapping) (shop : Nat) (package : Package)
    (quantity : Int) (actor : String) : Except ReconciliationError (List LogEntry) :=
  if package.sale_type == "refill" then
    match m.bundle_item with
    | some b =>
        Except.ok [{ stock_item := b, shop := shop, quantity_change := -quantity,
                     notes := "Sale deduction", actor := actor }]
    | none => Except.error ReconciliationError.unresolvedMapping
  else
    match m.bottle_item, m.label_item with
    | some b, some l =>
        Except.ok [{ stock_item := b, shop := shop, quantity_change := -quantity,
                     notes := "Sale deduction", actor := actor },
                   { stock_item := l, shop := shop, quantity_change := -quantity,
                     notes := "Sale deduction", actor := actor }]
    | _, _ => Except.error ReconciliationError.unresolvedMapping

/-- Modelled from the spec: `deduct_caps_and_labels_for_refill`
(spec §4.2) — caps and labels scaled by quantity, no bottles; error
when a required mapping is missing. -/
def deduct_caps_and_labels_for_refill (m : StockMapping) (shop : Nat)
    (quantity : Int) (actor : String) : Except ReconciliationError (List LogEntry) :=
  match m.cap_item, m.label_item with
  | some c, some l =>
      Except.ok [{ stock_item := c, shop := shop, quantity_change := -quantity,
                   notes := "Refill deduction", actor := actor },
                 { stock_item := l, shop := shop, quantity_change := -quantity,
                   notes := "Refill deduction", actor := actor }]
  | _, _ => Except.error ReconciliationError.unresolvedMapping

/-- The ledger rows actually appended by a deduction attempt: the
caller catches the engine's error and keeps going
(sales/serializers.py lines 56-61, refills/serializers.py lines
191-196), so an error appends nothing. -/
def entriesOrNil : Except ReconciliationError (List LogEntry) → List LogEntry
  | Except.ok es => es
  | Except.error _ => []

/-! ## Create operations (offline-sync idempotency gate) -/

/-- `validated_data` of `SalesSerializer.create`. -/
structure SaleInput where
  client_id : Option Nat
  customer : Option Nat
  shop : Shop
  package : Package
  quantity : Int
  payment_mode : String
  cost : Int
  sold_at : Option Nat
  agent_name : String
deriving Repr, DecidableEq

/-- `validated_data` of `RefillSerializer.create`: the split fields are
writable serializer fields supplied by the caller. -/
structure RefillInput where
  client_id : Option Nat
  customer : Option Nat
  shop : Shop
  package : Package
  quantity : Int
  payment_mode : String
  cost : Int
  is_free : Bool
  is_partially_free : Bool
  free_quantity : Int
  paid_quantity : Int
  loyalty_refill_count : Int
  created_at : Option Nat
  agent_name : String
deriving Repr, DecidableEq

/-- `validated_data` of `CreditsSerializer.create`. -/
structure CreditInput where
  client_id : Option Nat
  customer : Nat
  shop : Nat
  money_paid : Int
  payment_mode : String
  payment_date : Nat
  agent_name : String
deriving Repr, DecidableEq

/-- `validated_data` of `ExpensesSerializer.create`. -/
structure ExpenseInput where
  client_id : Option Nat
  shop : Nat
  description : String
  cost : Int
  receipt : Option String
  receipt_base64 : Option String
  agent_name : String
deriving Repr, DecidableEq

/-- `validated_data` of `MeterReadingSerializer.create`. -/
structure MeterReadingInput where
  client_id : Option Nat
  shop : Nat
  agent_name : String
  value : Int
  reading_type : String
  reading_date : Nat
  meter_photo : Option String
  meter_photo_base64 : Option String
deriving Repr, DecidableEq

/-- `validated_data` of `CustomerSerializer.create`. -/
structure CustomerInput where
  client_id : Option Nat
  shop : Nat
  names : String
  phone_number : String
  date_registered : Option Nat
deriving Repr, DecidableEq

/-- The `filter(client_id=client_id).first()` lookup guarding every
create: `none` when the request carries no client key, otherwise the
first stored row with that key. -/
def findByClientId {α : Type} (rows : List α) (key : α → Option Nat)
    (client_id : Option Nat) : Option α :=
  client_id.bind (fun c => rows.find? (fun x => key x == some c))

/-- The `Sales` row committed by a novel `create_sale`
(sales/serializers.py lines 45-53). -/
def saleRow (now : Nat) (input : SaleInput) : Sale :=
  { client_id := input.client_id, customer := input.customer,
    shop := input.shop.id, package := input.package.id,
    quantity := input.quantity, payment_mode := input.payment_mode,
    cost := input.cost, sold_at := input.sold_at.getD now,
    agent_name := input.agent_name }

/-- Embeds `SalesSerializer.create` (sales/serializers.py lines 30-63):
idempotent short-circuit on a seen `client_id`, commit of the row,
inventory deduction with the engine error swallowed as a warning. -/
def createSale (db : DB) (m : StockMapping) (now : Nat) (input : SaleInput) :
    Sale × DB :=
  match findByClientId db.sales (fun s => s.client_id) input.client_id with
  | some existing => (existing, db)
  | none =>
    let sale := saleRow now input
    (sale,
     { db with
       sales := db.sales ++ [sale],
       stock_log := db.stock_log
         ++ entriesOrNil (deduct_stock_for_sale m input.shop.id input.package
              input.quantity input.agent_name) })

/-- Cumulative refill quantity of the customer for one package before
the incoming transaction
(`Refills.objects.filter(customer=..., package=...).aggregate(Sum('quantity'))`,
refills/serializers.py lines 153-156). -/
def totalQuantityBefore (db : DB) (cid : Nat) (pkg : Nat) : Int :=
  ((db.refills.filter (fun r => r.customer == some cid && r.package == pkg)).map
      (fun r => r.quantity)).sum

/-- The offline free/paid recomputation of `RefillSerializer.create`
(refills/serializers.py lines 148-182): thresholds crossed on the
cumulative package quantity give `free_quantity`; the overpayment is
charged cost minus `package.price * paid_quantity` when positive.
Returns `(free_quantity, paid_quantity, credit_amount)`. -/
def offlineRecompute (db : DB) (input : RefillInput) (cid : Nat) : Int × Int × Int :=
  let interval := input.shop.freeRefillInterval
  let total_before := totalQuantityBefore db cid input.package.id
  let total_after := total_before + input.quantity
  let thresholds_before := Int.fdiv total_before interval
  let thresholds_after := Int.fdiv total_after interval
  let free_quantity := min (thresholds_after - thresholds_before) input.quantity
  let paid_quantity := input.quantity - free_quantity
  let correct_cost := input.package.price * paid_quantity
  let credit_amount := if correct_cost < input.cost then input.cost - correct_cost else 0
  (free_quantity, paid_quantity, credit_amount)

/-- The guard on the recomputation (refills/serializers.py lines
147-151): it runs only for an offline transaction (`client_id` set)
with a customer and a strictly positive `freeRefillInterval`. -/
def offlineRecomputeIfAny (db : DB) (input : RefillInput) : Option (Int × Int × Int) :=
  match input.client_id, input.customer with
  | some _, some cid =>
    if 0 < input.shop.freeRefillInterval then some (offlineRecompute db input cid)
    else none
  | _, _ => none

/-- The `Refills` row committed by a novel `create_refill`: on the
offline path the split fields are overwritten from the recomputation
and the charged cost is intentionally kept
(refills/serializers.py lines 175-182); otherwise the caller-supplied
fields are stored as-is. -/
def refillRow (db : DB) (now : Nat) (input : RefillInput) : Refill :=
  match offlineRecomputeIfAny db input with
  | some (fq, pq, _) =>
    { client_id := input.client_id, customer := input.customer,
      shop := input.shop.id, package := input.package.id,
      quantity := input.quantity, payment_mode := input.payment_mode,
      cost := input.cost,
      is_free := decide (0 < fq ∧ pq = 0),
      is_partially_free := decide (0 < fq ∧ 0 < pq),
      free_quantity := fq, paid_quantity := pq, loyalty_refill_count := pq,
      created_at := input.created_at.getD now, agent_name := input.agent_name }
  | none =>
    { client_id := input.client_id, customer := input.customer,
      shop := input.shop.id, package := input.package.id,
      quantity := input.quantity, payment_mode := input.payment_mode,
      cost := input.cost,
      is_free := input.is_free, is_partially_free := input.is_partially_free,
      free_quantity := input.free_quantity, paid_quantity := input.paid_quantity,
      loyalty_refill_count := input.loyalty_refill_count,
      created_at := input.created_at.getD now, agent_name := input.agent_name }

/-- The overpayment posted for an offline-synced refill
(refills/serializers.py lines 146-185): zero outside the recomputation
path or when the charged cost does not exceed the correct cost. -/
def offlineCreditAmount (db : DB) (input : RefillInput) : Int :=
  match offlineRecomputeIfAny db input with
  | some (_, _, amt) => amt
  | none => 0

/-- The `Credits` rows appended by `RefillSerializer.create` after the
commit: the positive overpayment compensation tagged `OfflineSync`
(lines 199-216) followed by the negative consumption of an applied
credit balance tagged `CreditUsed` (lines 218-236); both only when the
refill has a customer. -/
def refillCreditRows (db : DB) (now : Nat) (input : RefillInput)
    (credit_applied : Int) : List Credit :=
  match input.customer with
  | some cid =>
    (if 0 < offlineCreditAmount db input then
       [{ client_id := none, customer := cid, shop := input.shop.id,
          money_paid := offlineCreditAmount db input, payment_mode := "CASH",
          payment_date := now, agent_name := "OfflineSync" }]
     else [])
    ++ (if 0 < credit_applied then
          [{ client_id := none, customer := cid, shop := input.shop.id,
             money_paid := -credit_applied, payment_mode := "CASH",
             payment_date := now, agent_name := "CreditUsed" }]
        else [])
  | none => []

/-- Embeds `RefillSerializer.create` (refills/serializers.py lines
114-276): idempotent short-circuit, offline loyalty recomputation,
commit, cap/label deduction with the engine error swallowed, and the
synthetic credit postings.  SMS dispatch (lines 238-274) changes no
table and is not modelled. -/
def createRefill (db : DB) (m : StockMapping) (now : Nat) (input : RefillInput)
    (credit_applied : Int) : Refill × DB :=
  match findByClientId db.refills (fun r => r.client_id) input.client_id with
  | some existing => (existing, db)
  | none =>
    let r := refillRow db now input
    (r,
     { db with
       refills := db.refills ++ [r],
       stock_log := db.stock_log
         ++ entriesOrNil (deduct_caps_and_labels_for_refill m input.shop.id
              input.quantity input.agent_name),
       credits := db.credits ++ refillCreditRows db now input credit_applied })

/-- Embeds `CreditsSerializer.create` (credits/serializers.py lines 23-30). -/
def createCreditPayment (db : DB) (input : CreditInput) : Credit × DB :=
  match findByClientId db.credits (fun p => p.client_id) input.client_id with
  | some existing => (existing, db)
  | none =>
    let p : Credit :=
      { client_id := input.client_id, customer := input.customer,
        shop := input.shop, money_paid := input.money_paid,
        payment_mode := input.payment_mode, payment_date := input.payment_date,
        agent_name := input.agent_name }
    (p, { db with credits := db.credits ++ [p] })

/-- Embeds `ExpensesSerializer.create` (expenses/serializers.py lines
26-66); base64 decoding of the receipt is external file I/O, modelled
as taking the provided content when no receipt file is present. -/
def createExpense (db : DB) (input : ExpenseInput) : Expense × DB :=
  match findByClientId db.expenses (fun e => e.client_id) input.client_id with
  | some existing => (existing, db)
  | none =>
    let receipt :=
      match input.receipt with
      | some r => some r
      | none => input.receipt_base64
    let e : Expense :=
      { client_id := input.client_id, shop := input.shop,
        description := input.description, cost := input.cost,
        receipt := receipt, agent_name := input.agent_name }
    (e, { db with expenses := db.expenses ++ [e] })

/-- Embeds `MeterReadingSerializer.create` (meter_readings/serializers.py
lines 26-66); photo decoding modelled as for expenses. -/
def createMeterReading (db : DB) (input : MeterReadingInput) : MeterReading × DB :=
  match findByClientId db.meter_readings (fun r => r.client_id) input.client_id with
  | some existing => (existing, db)
  | none =>
    let r : MeterReading :=
      { client_id := input.client_id, shop := input.shop,
        agent_name := input.agent_name, value := input.value,
        reading_type := input.reading_type, reading_date := input.reading_date }
    (r, { db with meter_readings := db.meter_readings ++ [r] })

/-- Embeds `CustomerSerializer.create` (customers/serializers.py lines
28-40). -/
def createCustomer (db : DB) (now : Nat) (input : CustomerInput) : Customer × DB :=
  match findByClientId db.customers (fun c => c.client_id) input.client_id with
  | some existing => (existing, db)
  | none =>
    let c : Customer :=
      { client_id := input.client_id, shop := input.shop, names := input.names,
        phone_number := input.phone_number,
        date_registered := input.date_registered.getD now }
    (c, { db with customers := db.customers ++ [c] })

/-! ## Sample rows used by concrete evaluations -/

/-- A free refill (quantity 1, no loyalty credit) at tick 1. -/
def freeRefillEx : Refill :=
  { client_id := none, customer := some 1, shop := 1, package := 1,
    quantity := 1, payment_mode := "CASH", cost := 0, is_free := true,
    is_partially_free := false, free_quantity := 1, paid_quantity := 0,
    loyalty_refill_count := 0, created_at := 1, agent_name := "A" }

/-- A paid refill (quantity 1, one loyalty unit) at tick 2. -/
def paidRefillEx : Refill :=
  { client_id := none, customer := some 1, shop := 1, package := 1,
    quantity := 1, payment_mode := "CASH", cost := 50, is_free := false,
    is_partially_free := false, free_quantity := 0, paid_quantity := 1,
    loyalty_refill_count := 1, created_at := 2, agent_name := "A" }

/-! ## C1: the loyalty status formula -/

/-- The loyalty status as the amended claim words it: `accrued` is the
total refill quantity over ALL of the customer's refills, free ones
included, a falsy quantity counting as 1; the remaining formulas as in
the original claim. -/
def loyaltyClaimC1Amended (interval : Int) (refills : List Refill) : LoyaltyInfo :=
  let accrued := (refills.map quantityOrOne).sum
  let free_count : Int := ((refills.filter (fun r => r.is_free)).length : Int)
  let free_refills_redeemed := max free_count (Int.fdiv accrued interval)
  let current_points := Int.fmod (accrued - free_refills_redeemed) interval
  let refills_until_free :=
    if 0 < current_points then interval - current_points else interval
  { current_points := current_points
    refills_until_free := refills_until_free
    free_refills_redeemed := free_refills_redeemed }

/-- C1, counterexample: with interval 10 and history [free refill at
tick 1, paid refill at tick 2], the claim's window-based formula gives
current_points 0 and refills_until_free 10, but `get_loyalty` computes
current_points 1 and refills_until_free 9 — the code accrues the total
quantity of ALL refills, not `loyalty_refill_count` over the window
after the last free refill. -/
theorem claim1_loyalty_counterexample :
    get_loyalty 10 [freeRefillEx, paidRefillEx]
      ≠ some (loyaltyClaimC1 10 [freeRefillEx, paidRefillEx]) := by
  decide

/-- C1, amended: for every customer and every interval other than 0
(interval 0 raises, see C7), the loyalty status is computed from
`accrued` = the total quantity over all the customer's refills (free
ones included, falsy quantity counting 1): free_refills_redeemed =
max(count of is_free refills, accrued // interval); current_points =
(accrued − free_refills_redeemed) mod interval; refills_until_free =
interval − current_points if current_points > 0 else interval. -/
theorem claim1_loyalty_from_all_quantities (interval : Int)
    (refills : List Refill) (h : interval ≠ 0) :
    get_loyalty interval refills = some (loyaltyClaimC1Amended interval refills) := by
  simp [get_loyalty, loyaltyClaimC1Amended, h]

/-- C1, witness for the amended theorem at interval 10 on the sample
history. -/
theorem claim1_loyalty_from_all_quantities_witness :
    (10 : Int) ≠ 0 ∧
      get_loyalty 10 [freeRefillEx, paidRefillEx]
        = some (loyaltyClaimC1Amended 10 [freeRefillEx, paidRefillEx]) :=
  ⟨by decide,
   claim1_loyalty_from_all_quantities 10 [freeRefillEx, paidRefillEx] (by decide)⟩

/-! ## C7: non-positive freeRefillInterval -/

/-- C7: the refill serializer's quantity computations are guarded —
for interval ≤ 0 `get_free_refills_available` returns 0 and
`get_is_next_refill_free` returns false without dividing — but
`CustomerSerializer.get_loyalty` has no guard and performs
`refill_quantities // free_refill_interval` even when the interval is
0, raising `ZeroDivisionError` (embedded as `none`). -/
theorem claim7_interval_guard :
    get_loyalty 0 [paidRefillEx] = none ∧
      ∀ (interval : Int) (customer : Option Nat) (refills : List Refill),
        interval ≤ 0 →
          get_free_refills_available interval customer refills = 0 ∧
          get_is_next_refill_free interval customer refills = false := by
  refine ⟨rfl, ?_⟩
  intro interval customer refills h
  cases customer <;>
    simp [get_free_refills_available, get_is_next_refill_free, h]

/-- C7, witness for the guarded computations at interval -3. -/
theorem claim7_interval_guard_witness :
    (-3 : Int) ≤ 0 ∧
      get_free_refills_available (-3) (some 1) [paidRefillEx] = 0 ∧
      get_is_next_refill_free (-3) (some 1) [paidRefillEx] = false :=
  ⟨by decide, claim7_interval_guard.2 (-3) (some 1) [paidRefillEx] (by decide)⟩

/-! ## Ledger lemmas -/

/-- Appending one ledger entry moves the derived level by its delta
when the entry is for the item, and leaves it unchanged otherwise. -/
theorem get_current_stock_level_append (log : List LogEntry) (e : LogEntry)
    (item : Nat) :
    get_current_stock_level (log ++ [e]) item
      = get_current_stock_level log item
        + (if e.stock_item == item then e.quantity_change else 0) := by
  by_cases h : e.stock_item == item <;>
    simp [get_current_stock_level, List.filter_append, h]

/-! ## C5: subtract floor -/

/-- C5: a subtract adjustment of magnitude q (q > 0 per validation, see
C10) whose resulting level would be negative is rejected with the
insufficient-stock error and appends nothing, leaving the derived level
unchanged; otherwise one entry with quantity_change = −q is appended. -/
theorem claim5_subtract_floor (log : List LogEntry) (item shop : Nat) (q : Int)
    (reason actor : String) (hq : 0 < q) :
    (get_current_stock_level log item - q < 0 →
      adjust_stock log item shop AdjustmentType.subtract q reason actor
        = (log, Except.error AdjustError.insufficientStock)) ∧
    (0 ≤ get_current_stock_level log item - q →
      adjust_stock log item shop AdjustmentType.subtract q reason actor
        = (log ++ [{ stock_item := item, shop := shop, quantity_change := -q,
                     notes := "Manual adjustment: ".append reason, actor := actor }],
           Except.ok { previous_quantity := get_current_stock_level log item,
                       quantity_changed := -q,
                       new_quantity := get_current_stock_level log item - q })) := by
  constructor
  · intro h
    have h1 : ¬ q ≤ 0 := by omega
    have h2 : get_current_stock_level log item + -q < 0 := by omega
    simp [adjust_stock, h1, h2]
  · intro h
    have h1 : ¬ q ≤ 0 := by omega
    have h2 : ¬ get_current_stock_level log item + -q < 0 := by omega
    simp [adjust_stock, h1, h2, Int.sub_eq_add_neg]

/-- A seed ledger: item 1 holds 5 units. -/
def logEx : List LogEntry :=
  [{ stock_item := 1, shop := 1, quantity_change := 5, notes := "seed",
     actor := "A" }]

/-- C5, witness: subtracting 9 from level 5 is rejected and writes
nothing. -/
theorem claim5_subtract_floor_witness :
    (0 : Int) < 9 ∧
      adjust_stock logEx 1 1 AdjustmentType.subtract 9 "r" "A"
        = (logEx, Except.error AdjustError.insufficientStock) :=
  ⟨by decide, (claim5_subtract_floor logEx 1 1 9 "r" "A" (by decide)).1 (by decide)⟩

/-! ## C9: set exactness -/

/-- C9: an accepted set adjustment to V (V > 0 per validation, see C10)
appends exactly one entry with quantity_change = V − current level, and
re-deriving the level immediately afterwards returns exactly V. -/
theorem claim9_set_exactness (log : List LogEntry) (item shop : Nat) (v : Int)
    (reason actor : String) (hv : 0 < v) :
    adjust_stock log item shop AdjustmentType.set v reason actor
      = (log ++ [{ stock_item := item, shop := shop,
                   quantity_change := v - get_current_stock_level log item,
                   notes := "Manual adjustment: ".append reason, actor := actor }],
         Except.ok { previous_quantity := get_current_stock_level log item,
                     quantity_changed := v - get_current_stock_level log item,
                     new_quantity := v }) ∧
    get_current_stock_level
      (adjust_stock log item shop AdjustmentType.set v reason actor).1 item = v := by
  have h1 : ¬ v ≤ 0 := by omega
  have heq : adjust_stock log item shop AdjustmentType.set v reason actor
      = (log ++ [{ stock_item := item, shop := shop,
                   quantity_change := v - get_current_stock_level log item,
                   notes := "Manual adjustment: ".append reason, actor := actor }],
         Except.ok { previous_quantity := get_current_stock_level log item,
                     quantity_changed := v - get_current_stock_level log item,
                     new_quantity := v }) := by
    simp [adjust_stock, h1]
  refine ⟨heq, ?_⟩
  rw [heq]
  rw [get_current_stock_level_append]
  simp

/-- C9, witness: setting item 1 (level 5) to 12 appends delta 7 and the
derived level reads 12. -/
theorem claim9_set_exactness_witness :
    (0 : Int) < 12 ∧
      get_current_stock_level
        (adjust_stock logEx 1 1 AdjustmentType.set 12 "r" "A").1 1 = 12 :=
  ⟨by decide, (claim9_set_exactness logEx 1 1 12 "r" "A" (by decide)).2⟩

/-! ## C10: non-positive magnitudes are rejected -/

/-- C10: any adjustment request with magnitude ≤ 0 fails the
serializer validation, writes no ledger entry and reaches none of the
adjustment branches; in particular a set adjustment can only target
strictly positive values. -/
theorem claim10_nonpositive_rejected (log : List LogEntry) (item shop : Nat)
    (ty : AdjustmentType) (q : Int) (reason actor : String) (hq : q ≤ 0) :
    adjust_stock log item shop ty q reason actor
      = (log, Except.error AdjustError.invalidQuantity) := by
  simp [adjust_stock, hq]

/-- C10, witness: set-to-zero is rejected by validation. -/
theorem claim10_nonpositive_rejected_witness :
    (0 : Int) ≤ 0 ∧
      adjust_stock logEx 1 1 AdjustmentType.set 0 "r" "A"
        = (logEx, Except.error AdjustError.invalidQuantity) :=
  ⟨by decide, claim10_nonpositive_rejected logEx 1 1 AdjustmentType.set 0 "r" "A"
    (by decide)⟩

/-! ## C2: offline-sync idempotency gate -/

/-- The client_id of a committed refill row is the one supplied. -/
theorem refillRow_client_id (db : DB) (now : Nat) (input : RefillInput) :
    (refillRow db now input).client_id = input.client_id := by
  cases h : offlineRecomputeIfAny db input with
  | none => simp [refillRow, h]
  | some v =>
    obtain ⟨fq, pq, amt⟩ := v
    simp [refillRow, h]

/-- C2: each of the six create operations, when called with a non-null
client_id for which a stored row already exists, returns that row and
leaves the whole store untouched; and calling create_sale or
create_refill twice with the same novel non-null client_id returns the
identical record and state both times, so the single inventory
deduction and credit postings of the first call are never repeated. -/
theorem claim2_idempotent_create (db : DB) (m : StockMapping) (now now2 : Nat)
    (c : Nat) :
    (∀ (inp : SaleInput) (s : Sale), inp.client_id = some c →
       db.sales.find? (fun x => x.client_id == some c) = some s →
       createSale db m now inp = (s, db)) ∧
    (∀ (inp : RefillInput) (ca : Int) (r : Refill), inp.client_id = some c →
       db.refills.find? (fun x => x.client_id == some c) = some r →
       createRefill db m now inp ca = (r, db)) ∧
    (∀ (inp : CreditInput) (p : Credit), inp.client_id = some c →
       db.credits.find? (fun x => x.client_id == some c) = some p →
       createCreditPayment db inp = (p, db)) ∧
    (∀ (inp : ExpenseInput) (e : Expense), inp.client_id = some c →
       db.expenses.find? (fun x => x.client_id == some c) = some e →
       createExpense db inp = (e, db)) ∧
    (∀ (inp : MeterReadingInput) (r : MeterReading), inp.client_id = some c →
       db.meter_readings.find? (fun x => x.client_id == some c) = some r →
       createMeterReading db inp = (r, db)) ∧
    (∀ (inp : CustomerInput) (cu : Customer), inp.client_id = some c →
       db.customers.find? (fun x => x.client_id == some c) = some cu →
       createCustomer db now inp = (cu, db)) ∧
    (∀ (inp1 inp2 : SaleInput), inp1.client_id = some c →
       inp2.client_id = some c →
       db.sales.find? (fun x => x.client_id == some c) = none →
       createSale (createSale db m now inp1).2 m now2 inp2
         = createSale db m now inp1) ∧
    (∀ (inp1 inp2 : RefillInput) (ca1 ca2 : Int), inp1.client_id = some c →
       inp2.client_id = some c →
       db.refills.find? (fun x => x.client_id == some c) = none →
       createRefill (createRefill db m now inp1 ca1).2 m now2 inp2 ca2
         = createRefill db m now inp1 ca1) := by
  refine ⟨?_, ?_, ?_, ?_, ?_, ?_, ?_, ?_⟩
  · intro inp s h1 h2
    simp [createSale, findByClientId, h1, h2]
  · intro inp ca r h1 h2
    simp [createRefill, findByClientId, h1, h2]
  · intro inp p h1 h2
    simp [createCreditPayment, findByClientId, h1, h2]
  · intro inp e h1 h2
    simp [createExpense, findByClientId, h1, h2]
  · intro inp r h1 h2
    simp [createMeterReading, findByClientId, h1, h2]
  · intro inp cu h1 h2
    simp [createCustomer, findByClientId, h1, h2]
  · intro inp1 inp2 h1 h2 hn
    have hfst : createSale db m now inp1
        = (saleRow now inp1,
           { db with
             sales := db.sales ++ [saleRow now inp1],
             stock_log := db.stock_log
               ++ entriesOrNil (deduct_stock_for_sale m inp1.shop.id inp1.package
                    inp1.quantity inp1.agent_name) }) := by
      simp [createSale, findByClientId, h1, hn]
    rw [hfst]
    simp [createSale, findByClientId, h2, List.find?_append, hn, saleRow, h1]
  · intro inp1 inp2 ca1 ca2 h1 h2 hn
    have hfst : createRefill db m now inp1 ca1
        = (refillRow db now inp1,
           { db with
             refills := db.refills ++ [refillRow db now inp1],
             stock_log := db.stock_log
               ++ entriesOrNil (deduct_caps_and_labels_for_refill m inp1.shop.id
                    inp1.quantity inp1.agent_name),
             credits := db.credits ++ refillCreditRows db now inp1 ca1 }) := by
      simp [createRefill, findByClientId, h1, hn]
    rw [hfst]
    simp [createRefill, findByClientId, h2, List.find?_append, hn,
      refillRow_client_id, h1]

/-- A stored sale carrying client key 7. -/
def saleEx : Sale :=
  { client_id := some 7, customer := some 1, shop := 1, package := 1,
    quantity := 1, payment_mode := "CASH", cost := 100, sold_at := 3,
    agent_name := "A" }

/-- A store already holding `saleEx`. -/
def dbSaleEx : DB :=
  { sales := [saleEx], refills := [], credits := [], expenses := [],
    meter_readings := [], customers := [], stock_log := [] }

/-- A fully resolved stock mapping. -/
def mapEx : StockMapping :=
  { bottle_item := some 10, cap_item := some 11, label_item := some 12,
    bundle_item := some 13 }

/-- A retried sale upload: same client key 7, different other fields. -/
def saleInpEx : SaleInput :=
  { client_id := some 7, customer := some 2,
    shop := { id := 1, freeRefillInterval := 10 },
    package := { id := 1, price := 100, sale_type := "sale",
                 bottle_type := some "20L" },
    quantity := 5, payment_mode := "MPESA", cost := 500, sold_at := some 9,
    agent_name := "B" }

/-- C2, witness: retrying client key 7 against a store that already
holds it returns the stored sale and changes nothing. -/
theorem claim2_idempotent_create_witness :
    saleInpEx.client_id = some 7 ∧
      dbSaleEx.sales.find? (fun x => x.client_id == some 7) = some saleEx ∧
      createSale dbSaleEx mapEx 4 saleInpEx = (saleEx, dbSaleEx) :=
  ⟨rfl, by decide,
   (claim2_idempotent_create dbSaleEx mapEx 4 4 7).1 saleInpEx saleEx rfl
     (by decide)⟩

/-! ## C6: credit sign convention -/

/-- C6: outstanding and balance are the stated folds of the ledger, and
posting a repayment Credits row of amount K > 0 raises the balance by
exactly K while lowering outstanding by K clamped at 0. -/
theorem claim6_credit_signs (db : DB) (cid shop : Nat) (k : Int) (mode : String)
    (date : Nat) (agent : String) (hk : 0 < k) :
    outstanding db cid
        = max 0 (total_owed db.sales db.refills cid - total_repaid db.credits cid) ∧
    credit_balance db cid
        = total_repaid db.credits cid - total_owed db.sales db.refills cid ∧
    credit_balance
        (createCreditPayment db
          { client_id := none, customer := cid, shop := shop, money_paid := k,
            payment_mode := mode, payment_date := date, agent_name := agent }).2 cid
      = credit_balance db cid + k ∧
    outstanding
        (createCreditPayment db
          { client_id := none, customer := cid, shop := shop, money_paid := k,
            payment_mode := mode, payment_date := date, agent_name := agent }).2 cid
      = max 0 (outstanding db cid - k) := by
  have hdb2 : (createCreditPayment db
      { client_id := none, customer := cid, shop := shop, money_paid := k,
        payment_mode := mode, payment_date := date, agent_name := agent }).2
      = { db with credits := db.credits
            ++ [{ client_id := none, customer := cid, shop := shop,
                  money_paid := k, payment_mode := mode, payment_date := date,
                  agent_name := agent }] } := by
    simp [createCreditPayment, findByClientId]
  refine ⟨rfl, rfl, ?_, ?_⟩
  · rw [hdb2]
    simp [credit_balance, total_repaid, total_owed, List.filter_append]
    omega
  · rw [hdb2]
    simp [outstanding, total_repaid, total_owed, List.filter_append]
    omega

/-- A credit-mode sale of 300 owed by customer 1. -/
def saleCredEx : Sale :=
  { client_id := none, customer := some 1, shop := 1, package := 1,
    quantity := 3, payment_mode := "CREDIT", cost := 300, sold_at := 2,
    agent_name := "A" }

/-- A credit-mode refill of 200 owed by customer 1. -/
def refillCredEx : Refill :=
  { client_id := none, customer := some 1, shop := 1, package := 1,
    quantity := 2, payment_mode := "CREDIT", cost := 200, is_free := false,
    is_partially_free := false, free_quantity := 0, paid_quantity := 2,
    loyalty_refill_count := 2, created_at := 3, agent_name := "A" }

/-- A prior repayment of 200 by customer 1. -/
def credPayEx : Credit :=
  { client_id := none, customer := 1, shop := 1, money_paid := 200,
    payment_mode := "CASH", payment_date := 4, agent_name := "A" }

/-- A store with total_owed 500 and total_repaid 200 for customer 1. -/
def dbCreditEx : DB :=
  { sales := [saleCredEx], refills := [refillCredEx], credits := [credPayEx],
    expenses := [], meter_readings := [], customers := [], stock_log := [] }

/-- C6, witness: on owed 500 / repaid 200 (balance −300, outstanding
300), a repayment of 100 yields balance −200 and outstanding 200. -/
theorem claim6_credit_signs_witness :
    (0 : Int) < 100 ∧
      credit_balance
          (createCreditPayment dbCreditEx
            { client_id := none, customer := 1, shop := 1, money_paid := 100,
              payment_mode := "CASH", payment_date := 5, agent_name := "A" }).2 1
        = credit_balance dbCreditEx 1 + 100 ∧
      outstanding
          (createCreditPayment dbCreditEx
            { client_id := none, customer := 1, shop := 1, money_paid := 100,
              payment_mode := "CASH", payment_date := 5, agent_name := "A" }).2 1
        = max 0 (outstanding dbCreditEx 1 - 100) :=
  ⟨by decide,
   (claim6_credit_signs dbCreditEx 1 1 100 "CASH" 5 "A" (by decide)).2.2⟩

/-! ## C8: deduction failure is non-fatal -/

/-- C8: when the inventory engine cannot resolve a required StockItem
mapping for a novel create_sale or create_refill, the parent row is
still committed and returned, and no ledger entry is written — the
failure is swallowed as a warning, never propagated. -/
theorem claim8_deduction_nonfatal (db : DB) (m : StockMapping) (now : Nat)
    (sinp : SaleInput) (rinp : RefillInput) (ca : Int)
    (hs_new : findByClientId db.sales (fun s => s.client_id) sinp.client_id = none)
    (hr_new : findByClientId db.refills (fun r => r.client_id) rinp.client_id = none)
    (hs : deduct_stock_for_sale m sinp.shop.id sinp.package sinp.quantity
            sinp.agent_name
          = Except.error ReconciliationError.unresolvedMapping)
    (hr : deduct_caps_and_labels_for_refill m rinp.shop.id rinp.quantity
            rinp.agent_name
          = Except.error ReconciliationError.unresolvedMapping) :
    ((createSale db m now sinp).2.sales
        = db.sales ++ [(createSale db m now sinp).1] ∧
      (createSale db m now sinp).2.stock_log = db.stock_log) ∧
    ((createRefill db m now rinp ca).2.refills
        = db.refills ++ [(createRefill db m now rinp ca).1] ∧
      (createRefill db m now rinp ca).2.stock_log = db.stock_log) := by
  constructor
  · constructor <;> simp [createSale, hs_new, hs, entriesOrNil]
  · constructor <;> simp [createRefill, hr_new, hr, entriesOrNil]

/-- The empty store. -/
def dbEmptyEx : DB :=
  { sales := [], refills := [], credits := [], expenses := [],
    meter_readings := [], customers := [], stock_log := [] }

/-- A stock mapping with nothing resolved. -/
def mapNoneEx : StockMapping :=
  { bottle_item := none, cap_item := none, label_item := none,
    bundle_item := none }

/-- An online sale input (no client key). -/
def saleInpNoIdEx : SaleInput :=
  { client_id := none, customer := some 1,
    shop := { id := 1, freeRefillInterval := 10 },
    package := { id := 1, price := 100, sale_type := "sale",
                 bottle_type := some "20L" },
    quantity := 2, payment_mode := "CASH", cost := 200, sold_at := some 5,
    agent_name := "A" }

/-- An online refill input (no client key). -/
def refillInpNoIdEx : RefillInput :=
  { client_id := none, customer := some 1,
    shop := { id := 1, freeRefillInterval := 10 },
    package := { id := 1, price := 100, sale_type := "refill",
                 bottle_type := none },
    quantity := 2, payment_mode := "CASH", cost := 200, is_free := false,
    is_partially_free := false, free_quantity := 0, paid_quantity := 2,
    loyalty_refill_count := 2, created_at := some 5, agent_name := "A" }

/-- C8, witness: with no mapping resolved, both creates on the empty
store commit their row and write no ledger entry. -/
theorem claim8_deduction_nonfatal_witness :
    ((createSale dbEmptyEx mapNoneEx 5 saleInpNoIdEx).2.sales
        = dbEmptyEx.sales ++ [(createSale dbEmptyEx mapNoneEx 5 saleInpNoIdEx).1] ∧
      (createSale dbEmptyEx mapNoneEx 5 saleInpNoIdEx).2.stock_log
        = dbEmptyEx.stock_log) ∧
    ((createRefill dbEmptyEx mapNoneEx 5 refillInpNoIdEx 0).2.refills
        = dbEmptyEx.refills
          ++ [(createRefill dbEmptyEx mapNoneEx 5 refillInpNoIdEx 0).1] ∧
      (createRefill dbEmptyEx mapNoneEx 5 refillInpNoIdEx 0).2.stock_log
        = dbEmptyEx.stock_log) :=
  claim8_deduction_nonfatal dbEmptyEx mapNoneEx 5 saleInpNoIdEx refillInpNoIdEx 0
    rfl rfl rfl rfl

/-! ## C4: the refill split invariant -/

/-- An online refill input whose caller-supplied split is inconsistent:
quantity 2 but free 1 + paid 0, loyalty count 5. -/
def badSplitInpEx : RefillInput :=
  { client_id := none, customer := some 1,
    shop := { id := 1, freeRefillInterval := 10 },
    package := { id := 1, price := 100, sale_type := "refill",
                 bottle_type := none },
    quantity := 2, payment_mode := "CASH", cost := 100, is_free := false,
    is_partially_free := false, free_quantity := 1, paid_quantity := 0,
    loyalty_refill_count := 5, created_at := some 3, agent_name := "A" }

/-- C4, counterexample: an online create (no client_id) stores the
caller-supplied split unchecked, so a committed Refill can violate both
equations of the claimed invariant. -/
theorem claim4_refill_split_counterexample :
    (createRefill dbEmptyEx mapEx 3 badSplitInpEx 0).2.refills
        = [(createRefill dbEmptyEx mapEx 3 badSplitInpEx 0).1] ∧
      ¬ ((createRefill dbEmptyEx mapEx 3 badSplitInpEx 0).1.free_quantity
            + (createRefill dbEmptyEx mapEx 3 badSplitInpEx 0).1.paid_quantity
          = (createRefill dbEmptyEx mapEx 3 badSplitInpEx 0).1.quantity) ∧
      ¬ ((createRefill dbEmptyEx mapEx 3 badSplitInpEx 0).1.loyalty_refill_count
          = (createRefill dbEmptyEx mapEx 3 badSplitInpEx 0).1.paid_quantity) := by
  decide

/-- C4, amended: every Refill committed through the offline-sync
recompute path (non-null novel client_id, customer present,
freeRefillInterval > 0) satisfies free_quantity + paid_quantity =
quantity and loyalty_refill_count = paid_quantity; outside that path
the caller-supplied split is stored as-is, so the invariant is
preserved only if the input already satisfies it. -/
theorem claim4_refill_split_offline (db : DB) (m : StockMapping) (now : Nat)
    (input : RefillInput) (ca : Int) (c cid : Nat)
    (hcl : input.client_id = some c)
    (hnew : db.refills.find? (fun r => r.client_id == some c) = none)
    (hcust : input.customer = some cid)
    (hint : 0 < input.shop.freeRefillInterval) :
    (createRefill db m now input ca).1.free_quantity
        + (createRefill db m now input ca).1.paid_quantity
      = (createRefill db m now input ca).1.quantity ∧
    (createRefill db m now input ca).1.loyalty_refill_count
      = (createRefill db m now input ca).1.paid_quantity ∧
    (createRefill db m now input ca).2.refills
      = db.refills ++ [(createRefill db m now input ca).1] := by
  have hrec : offlineRecomputeIfAny db input
      = some (offlineRecompute db input cid) := by
    simp [offlineRecomputeIfAny, hcl, hcust, hint]
  rcases h2 : offlineRecompute db input cid with ⟨fq, pq, amt⟩
  have hsum : fq + pq = input.quantity := by
    unfold offlineRecompute at h2
    simp only [Prod.mk.injEq] at h2
    obtain ⟨ha, hb, _⟩ := h2
    omega
  have hcreate : createRefill db m now input ca
      = (refillRow db now input,
         { db with
           refills := db.refills ++ [refillRow db now input],
           stock_log := db.stock_log
             ++ entriesOrNil (deduct_caps_and_labels_for_refill m input.shop.id
                  input.quantity input.agent_name),
           credits := db.credits ++ refillCreditRows db now input ca }) := by
    simp [createRefill, findByClientId, hcl, hnew]
  rw [hcreate]
  simp [refillRow, hrec, h2]
  omega

/-- The customer's 9 prior paid units of package 1. -/
def priorNineEx : Refill :=
  { client_id := none, customer := some 1, shop := 1, package := 1,
    quantity := 9, payment_mode := "CASH", cost := 450, is_free := false,
    is_partially_free := false, free_quantity := 0, paid_quantity := 9,
    loyalty_refill_count := 9, created_at := 1, agent_name := "A" }

/-- A store holding the 9 prior units. -/
def dbNineEx : DB :=
  { sales := [], refills := [priorNineEx], credits := [], expenses := [],
    meter_readings := [], customers := [], stock_log := [] }

/-- An offline-synced refill (client key 7) of 1 unit charged full
price 100, CASH at the POS, arriving as the 10th cumulative unit
against interval 10. -/
def offlineCashInpEx : RefillInput :=
  { client_id := some 7, customer := some 1,
    shop := { id := 1, freeRefillInterval := 10 },
    package := { id := 1, price := 100, sale_type := "refill",
                 bottle_type := none },
    quantity := 1, payment_mode := "CASH", cost := 100, is_free := false,
    is_partially_free := false, free_quantity := 0, paid_quantity := 1,
    loyalty_refill_count := 1, created_at := some 9, agent_name := "B" }

/-- C4, witness for the amended theorem: the recomputed 10th-unit
refill stores free 1 + paid 0 = quantity 1 and loyalty count 0. -/
theorem claim4_refill_split_offline_witness :
    (createRefill dbNineEx mapEx 9 offlineCashInpEx 0).1.free_quantity
        + (createRefill dbNineEx mapEx 9 offlineCashInpEx 0).1.paid_quantity
      = (createRefill dbNineEx mapEx 9 offlineCashInpEx 0).1.quantity ∧
    (createRefill dbNineEx mapEx 9 offlineCashInpEx 0).1.loyalty_refill_count
      = (createRefill dbNineEx mapEx 9 offlineCashInpEx 0).1.paid_quantity ∧
    (createRefill dbNineEx mapEx 9 offlineCashInpEx 0).2.refills
      = dbNineEx.refills ++ [(createRefill dbNineEx mapEx 9 offlineCashInpEx 0).1] :=
  claim4_refill_split_offline dbNineEx mapEx 9 offlineCashInpEx 0 7 1 rfl
    (by decide) rfl (by decide)

/-! ## C3: offline overpayment compensation -/

/-- The 10th-unit offline refill of `offlineCashInpEx`, but recorded on
CREDIT at the POS. -/
def offlineCreditInpEx : RefillInput :=
  { client_id := some 7, customer := some 1,
    shop := { id := 1, freeRefillInterval := 10 },
    package := { id := 1, price := 100, sale_type := "refill",
                 bottle_type := none },
    quantity := 1, payment_mode := "CREDIT", cost := 100, is_free := false,
    is_partially_free := false, free_quantity := 0, paid_quantity := 1,
    loyalty_refill_count := 1, created_at := some 9, agent_name := "B" }

/-- C3, counterexample, two scenarios of the 10th-unit refill charged
100 where the correct cost is 0.  First, CREDIT-mode with no credit
applied: the OfflineSync credit of 100 is posted, but the CREDIT
refill raises total_owed by the same 100, so the balance does not
increase by 100 (it is unchanged).  Second, CASH-mode with
credit_applied 50: the OfflineSync credit of 100 is posted together
with a CreditUsed entry of −50, so the balance rises by 50, not by
100.  Each scenario refutes the claim's balance clause as stated. -/
theorem claim3_offline_overpayment_counterexample :
    ((createRefill dbNineEx mapEx 9 offlineCreditInpEx 0).2.credits
        = [{ client_id := none, customer := 1, shop := 1, money_paid := 100,
             payment_mode := "CASH", payment_date := 9,
             agent_name := "OfflineSync" }] ∧
      ¬ (credit_balance (createRefill dbNineEx mapEx 9 offlineCreditInpEx 0).2 1
          = credit_balance dbNineEx 1 + 100)) ∧
    ((createRefill dbNineEx mapEx 9 offlineCashInpEx 50).2.credits
        = [{ client_id := none, customer := 1, shop := 1, money_paid := 100,
             payment_mode := "CASH", payment_date := 9,
             agent_name := "OfflineSync" },
           { client_id := none, customer := 1, shop := 1, money_paid := -50,
             payment_mode := "CASH", payment_date := 9,
             agent_name := "CreditUsed" }] ∧
      ¬ (credit_balance (createRefill dbNineEx mapEx 9 offlineCashInpEx 50).2 1
          = credit_balance dbNineEx 1 + 100)) := by
  decide

/-- C3, amended: for an offline-synced refill (novel non-null
client_id, customer present, interval > 0) whose recomputed correct
cost is strictly below the charged cost, unconditionally: a Credits
entry with money_paid equal to the positive difference (charged cost
minus package price times the recomputed paid quantity) is appended
with the OfflineSync tag — followed by a negative CreditUsed entry
when a credit balance is applied in the same call — and the stored
refill keeps the charged cost unrecalculated; the customer's balance
increases by exactly that difference relative to the pre-sync state
provided the refill itself is not CREDIT-mode and no credit balance is
applied in the same call. -/
theorem claim3_offline_overpayment_credit (db : DB) (m : StockMapping)
    (now : Nat) (input : RefillInput) (ca : Int) (c cid : Nat)
    (hcl : input.client_id = some c)
    (hnew : db.refills.find? (fun r => r.client_id == some c) = none)
    (hcust : input.customer = some cid)
    (hint : 0 < input.shop.freeRefillInterval)
    (hover : 0 < offlineCreditAmount db input) :
    (createRefill db m now input ca).2.credits
        = db.credits
          ++ [{ client_id := none, customer := cid, shop := input.shop.id,
                money_paid := offlineCreditAmount db input,
                payment_mode := "CASH", payment_date := now,
                agent_name := "OfflineSync" }]
          ++ (if 0 < ca then
                [{ client_id := none, customer := cid, shop := input.shop.id,
                   money_paid := -ca, payment_mode := "CASH",
                   payment_date := now, agent_name := "CreditUsed" }]
              else []) ∧
    offlineCreditAmount db input
        = input.cost
          - input.package.price * (createRefill db m now input ca).1.paid_quantity ∧
    (createRefill db m now input ca).1.cost = input.cost ∧
    ((input.payment_mode == "CREDIT") = false → ca ≤ 0 →
      credit_balance (createRefill db m now input ca).2 cid
        = credit_balance db cid + offlineCreditAmount db input) := by
  have hrec : offlineRecomputeIfAny db input
      = some (offlineRecompute db input cid) := by
    simp [offlineRecomputeIfAny, hcl, hcust, hint]
  rcases h2 : offlineRecompute db input cid with ⟨fq, pq, amt⟩
  have hamt : offlineCreditAmount db input = amt := by
    simp [offlineCreditAmount, hrec, h2]
  have hover2 : 0 < amt := hamt ▸ hover
  have h3 := h2
  unfold offlineRecompute at h3
  simp only [Prod.mk.injEq] at h3
  obtain ⟨ha, hb, hc⟩ := h3
  rw [hb] at hc
  have hval : amt = input.cost - input.package.price * pq := by
    by_cases hcond : input.package.price * pq < input.cost
    · rw [if_pos hcond] at hc
      omega
    · rw [if_neg hcond] at hc
      omega
  have hcreate : createRefill db m now input ca
      = (refillRow db now input,
         { db with
           refills := db.refills ++ [refillRow db now input],
           stock_log := db.stock_log
             ++ entriesOrNil (deduct_caps_and_labels_for_refill m input.shop.id
                  input.quantity input.agent_name),
           credits := db.credits ++ refillCreditRows db now input ca }) := by
    simp [createRefill, findByClientId, hcl, hnew]
  have hrows : refillCreditRows db now input ca
      = [{ client_id := none, customer := cid, shop := input.shop.id,
           money_paid := offlineCreditAmount db input, payment_mode := "CASH",
           payment_date := now, agent_name := "OfflineSync" }]
        ++ (if 0 < ca then
              [{ client_id := none, customer := cid, shop := input.shop.id,
                 money_paid := -ca, payment_mode := "CASH", payment_date := now,
                 agent_name := "CreditUsed" }]
            else []) := by
    simp [refillCreditRows, hcust, hover]
  refine ⟨?_, ?_, ?_, ?_⟩
  · rw [hcreate]
    simp [hrows]
  · rw [hcreate]
    simp [refillRow, hrec, h2, hamt, hval]
  · rw [hcreate]
    simp [refillRow, hrec, h2]
  · intro hmode hca
    have hrows2 : refillCreditRows db now input ca
        = [{ client_id := none, customer := cid, shop := input.shop.id,
             money_paid := offlineCreditAmount db input, payment_mode := "CASH",
             payment_date := now, agent_name := "OfflineSync" }] := by
      rw [hrows, if_neg (by omega : ¬ 0 < ca)]
      simp
    rw [hcreate]
    simp [credit_balance, total_repaid, total_owed, List.filter_append, hrows2,
      refillRow, hrec, h2, hcust, hmode, hamt]
    omega

/-- C3, witness for the amended theorem: the CASH variant of the same
10th-unit scenario with no credit applied posts the OfflineSync credit
of 100, the stored cost stays 100, and the balance rises from 0 to
100. -/
theorem claim3_offline_overpayment_credit_witness :
    offlineCreditAmount dbNineEx offlineCashInpEx
        = 100 - 100 * (createRefill dbNineEx mapEx 9 offlineCashInpEx 0).1.paid_quantity ∧
    (createRefill dbNineEx mapEx 9 offlineCashInpEx 0).1.cost = 100 ∧
    credit_balance (createRefill dbNineEx mapEx 9 offlineCashInpEx 0).2 1
        = credit_balance dbNineEx 1
          + offlineCreditAmount dbNineEx offlineCashInpEx :=
  (fun h => ⟨h.2.1, h.2.2.1, h.2.2.2 (by decide) (by decide)⟩)
    (claim3_offline_overpayment_credit dbNineEx mapEx 9 offlineCashInpEx 0 7 1 rfl
      (by decide) rfl (by decide) (by decide))

end Hamu
